import Mathlib

/-!
Shallow embedding of the PyPowerVisualization front-end core
(`src/static/js/main.js`): the PyPower data adapter, the topology store
operations, link-endpoint reference resolution, and the click-driven
interaction state machine.  Numeric attributes are modelled as rationals;
JavaScript `undefined` is modelled with `Option`, and JavaScript truthiness
(`0` and `""` are falsy) is modelled explicitly wherever the source tests it.
-/

namespace PPV

/-! ### JavaScript primitives -/

/-- JS `a || b` for an optional numeric field: `undefined` and `0` are falsy. -/
def orNum (a : Option Rat) (b : Rat) : Rat :=
  match a with
  | none => b
  | some v => if v = 0 then b else v

/-- JS `a || b` for an optional string field: `undefined` and `""` are falsy. -/
def orStr (a : Option String) (b : String) : String :=
  match a with
  | none => b
  | some s => if s.isEmpty then b else s

/-- JS truthiness of an optional string (`undefined` and `""` are falsy). -/
def truthyStr (a : Option String) : Bool :=
  match a with
  | none => false
  | some s => !s.isEmpty

/-- JS `a || k` where `a` is an optional numeric field rendered into a template
string (`` `bus${node.bus_i || node.bus || ...}` ``): a present nonzero value
is rendered in decimal, otherwise the fallback string is used. -/
def jsNumStr (a : Option Nat) (k : String) : String :=
  match a with
  | none => k
  | some v => if v = 0 then k else toString v

/-- A JS primitive value as it appears in raw link endpoint fields:
either a string id or a number. -/
inductive JSPrim where
  | str (s : String)
  | num (v : Rat)
deriving Repr, DecidableEq

/-- JS truthiness of an optional primitive value. -/
def truthyPrim (a : Option JSPrim) : Bool :=
  match a with
  | none => false
  | some (.str s) => !s.isEmpty
  | some (.num v) => v != 0

/-- JS `a || b` on optional primitive values (returns `b` as-is when `a` is
falsy, even if `b` is itself falsy). -/
def jsOr2 (a b : Option JSPrim) : Option JSPrim :=
  if truthyPrim a then a else b

/-- Leading decimal digits of a character list, as a natural number;
`none` when the list does not start with a digit. -/
def leadDigits (cs : List Char) : Option Nat :=
  let ds := cs.takeWhile Char.isDigit
  if ds.isEmpty then none
  else some (ds.foldl (fun a c => a * 10 + (c.toNat - 48)) 0)

/-- Model of JS `parseInt(s)` (radix 10): skip leading spaces, optional sign,
then the longest digit run; `none` models `NaN`. -/
def parseIntJS (s : String) : Option Int :=
  let cs := s.toList.dropWhile (· = ' ')
  match cs with
  | '-' :: t => (leadDigits t).map (fun n => -(n : Int))
  | '+' :: t => (leadDigits t).map (fun n => (n : Int))
  | _ => (leadDigits cs).map (fun n => (n : Int))

/-- Model of JS `s.replace('bus', '')`: removes the first occurrence of
`"bus"` only. -/
def stripFirstBus (s : String) : String :=
  match s.splitOn "bus" with
  | [] => s
  | [_] => s
  | x :: y :: rest => x ++ String.intercalate "bus" (y :: rest)

/-! ### Data Adapter (`PyPowerDataAdapter`, main.js lines 9-261) -/

/-- A raw payload node, with every alias field the adapter reads
(`main.js` lines 53-73 and 100-122).  Ids are strings per the data model;
absent fields are `none`. -/
structure RawNode where
  id : Option String := none
  bus_i : Option Nat := none
  bus : Option Nat := none
  type : Option String := none
  bus_type : Option Rat := none
  voltage : Option Rat := none
  vm : Option Rat := none
  angle : Option Rat := none
  va : Option Rat := none
  active_power : Option Rat := none
  pd : Option Rat := none
  reactive_power : Option Rat := none
  qd : Option Rat := none
  x : Option Rat := none
  y : Option Rat := none
deriving Repr, DecidableEq

/-- A raw payload link with every alias field the adapter reads
(`main.js` lines 81-92).  `from_`/`to_` embed the JS fields `from`/`to`. -/
structure RawLink where
  source : Option JSPrim := none
  fbus : Option JSPrim := none
  from_ : Option JSPrim := none
  target : Option JSPrim := none
  tbus : Option JSPrim := none
  to_ : Option JSPrim := none
  resistance : Option Rat := none
  r : Option Rat := none
  reactance : Option Rat := none
  x : Option Rat := none
  active_power : Option Rat := none
  pf : Option Rat := none
  reactive_power : Option Rat := none
  qf : Option Rat := none
deriving Repr, DecidableEq

/-- A raw payload (`{nodes, links}`); a missing/non-array member is `none`. -/
structure RawData where
  nodes : Option (List RawNode) := none
  links : Option (List RawLink) := none
deriving Repr, DecidableEq

/-- `busTypeMapping` (main.js lines 15-19): JS object lookup, `none` for an
unknown code. -/
def busTypeMapping (b : Rat) : Option String :=
  if b = 1 then some "slack"
  else if b = 2 then some "pv"
  else if b = 3 then some "load"
  else none

/-- The part of `determineNodeType` below the explicit-type check
(main.js lines 107-121): a defined `bus_type` is mapped through
`busTypeMapping` with `'load'` for unknown codes; then the power heuristic
runs on the RAW `active_power`/`voltage` fields (JS `undefined > 0` and
`undefined < 0` are both false). -/
def determineNodeTypeFallback (nd : RawNode) : String :=
  match nd.bus_type with
  | some b => (busTypeMapping b).getD "load"
  | none =>
    if (match nd.active_power with | some v => decide (0 < v) | none => false)
        && nd.voltage.isSome then "pv"
    else if (match nd.active_power with | some v => decide (0 < v) | none => false) then
      "generator"
    else if (match nd.active_power with | some v => decide (v < 0) | none => false) then
      "load"
    else "load"

/-- `determineNodeType(node, caseType)` (main.js lines 100-122).  The explicit
`type` field wins when truthy (JS `if (node.type)`); otherwise the
`bus_type`/heuristic fallback decides.  `caseType` is accepted and ignored,
as in the source. -/
def determineNodeType (nd : RawNode) (_caseType : String) : String :=
  match nd.type with
  | some t => if t.isEmpty then determineNodeTypeFallback nd else t
  | none => determineNodeTypeFallback nd

/-- A synthesized node coordinate.  `xy` is a concrete coordinate from a
predefined layout table; `circular idx total` stands for the circular-layout
point `(400 + 80 * cos θ, 300 + 80 * sin θ)` with `θ = 2π(idx-1)/total`,
kept symbolic because the trigonometry is irrational (both call sites in the
source pass center `(400, 300)` and radius `80`). -/
inductive Coord where
  | xy (x y : Rat)
  | circular (idx : Int) (total : Nat)
deriving Repr, DecidableEq

/-- The hand-authored `case9` layout table (main.js lines 134-144). -/
def case9Layout : List (String × Coord) :=
  [("bus1", .xy 100 150), ("bus2", .xy 200 100), ("bus3", .xy 200 200),
   ("bus4", .xy 300 50), ("bus5", .xy 300 150), ("bus6", .xy 300 250),
   ("bus7", .xy 400 100), ("bus8", .xy 400 200), ("bus9", .xy 500 150)]

/-- The hand-authored `case14` layout table (main.js lines 145-160). -/
def case14Layout : List (String × Coord) :=
  [("bus1", .xy 100 200), ("bus2", .xy 200 150), ("bus3", .xy 200 250),
   ("bus4", .xy 300 100), ("bus5", .xy 300 200), ("bus6", .xy 300 300),
   ("bus7", .xy 400 150), ("bus8", .xy 400 250), ("bus9", .xy 500 100),
   ("bus10", .xy 500 200), ("bus11", .xy 500 300), ("bus12", .xy 600 150),
   ("bus13", .xy 600 250), ("bus14", .xy 700 200)]

/-- `generateCircularLayout(nodeCount, 400, 300, 80)` (main.js lines 184-194):
keys `bus1` .. `busN`, angles `2π(i-1)/N`. -/
def generateCircularLayout (nodeCount : Nat) : List (String × Coord) :=
  (List.range nodeCount).map
    (fun i => ("bus" ++ toString (i + 1), Coord.circular ((i : Int) + 1) nodeCount))

/-- `generateCircularLayoutForNode(nodeId, totalNodes, 400, 300, 80)`
(main.js lines 205-212): `parseInt(nodeId.replace('bus','')) || 1`. -/
def generateCircularLayoutForNode (nodeId : String) (totalNodes : Nat) : Coord :=
  let nodeIndex : Int :=
    match parseIntJS (stripFirstBus nodeId) with
    | some v => if v = 0 then 1 else v
    | none => 1
  Coord.circular nodeIndex totalNodes

/-- `generateNodeCoordinates(nodeId, caseType, totalNodes)`
(main.js lines 131-174): predefined tables for `case9`/`case14`/`case30`,
circular fallback otherwise. -/
def generateNodeCoordinates (nodeId caseType : String) (totalNodes : Nat) : Coord :=
  let predef : Option Coord :=
    if caseType = "case9" then case9Layout.lookup nodeId
    else if caseType = "case14" then case14Layout.lookup nodeId
    else if caseType = "case30" then (generateCircularLayout 30).lookup nodeId
    else none
  match predef with
  | some c => c
  | none => generateCircularLayoutForNode nodeId totalNodes

/-- The adapter's canonical (normalized) node shape. -/
structure NormNode where
  id : String
  voltage : Rat
  angle : Rat
  active_power : Rat
  reactive_power : Rat
  type : String
  coord : Option Coord
deriving Repr, DecidableEq

/-- One step of `normalizeNodes` (main.js lines 53-73).  `rnd` stands for the
random suffix `Math.random().toString(36).substr(2, 9)` used only when `id`,
`bus_i` and `bus` are all falsy.  Note that the source builds
`normalizedNode` WITHOUT copying the raw node's `x`/`y`, so its
`if (!normalizedNode.x || !normalizedNode.y)` check always fires (here:
`coord` is always `none` at the check). -/
def normalizeNode (nd : RawNode) (caseType : String) (totalNodes : Nat)
    (rnd : String) : NormNode :=
  let normalizedNode : NormNode :=
    { id := orStr nd.id ("bus" ++ jsNumStr nd.bus_i (jsNumStr nd.bus rnd))
      voltage := orNum nd.voltage (orNum nd.vm 1)
      angle := orNum nd.angle (orNum nd.va 0)
      active_power := orNum nd.active_power (orNum nd.pd 0)
      reactive_power := orNum nd.reactive_power (orNum nd.qd 0)
      type := determineNodeType nd caseType
      coord := none }
  if normalizedNode.coord.isNone then
    { normalizedNode with
        coord := some (generateNodeCoordinates normalizedNode.id caseType totalNodes) }
  else normalizedNode

/-- `normalizeNodes(nodes, caseType)` (main.js lines 53-73); `rnd i` is the
random draw for the `i`-th node. -/
def normalizeNodes (nodes : List RawNode) (caseType : String)
    (rnd : Nat → String) : List NormNode :=
  nodes.mapIdx (fun i nd => normalizeNode nd caseType nodes.length (rnd i))

/-- The adapter's canonical (normalized) link shape; endpoints keep whatever
raw value survived the alias chain (string, number, or `undefined`). -/
structure NormLink where
  source : Option JSPrim
  target : Option JSPrim
  resistance : Rat
  reactance : Rat
  active_power : Rat
  reactive_power : Rat
deriving Repr, DecidableEq

/-- One step of `normalizeLinks` (main.js lines 81-92). -/
def normalizeLink (l : RawLink) : NormLink :=
  { source := jsOr2 l.source (jsOr2 l.fbus l.from_)
    target := jsOr2 l.target (jsOr2 l.tbus l.to_)
    resistance := orNum l.resistance (orNum l.r (mkRat 1 100))
    reactance := orNum l.reactance (orNum l.x (mkRat 1 20))
    active_power := orNum l.active_power (orNum l.pf 0)
    reactive_power := orNum l.reactive_power (orNum l.qf 0) }

/-- `normalizeLinks(links, caseType)` (main.js lines 81-92). -/
def normalizeLinks (links : List RawLink) : List NormLink :=
  links.map normalizeLink

/-- `detectCaseType(data)` (main.js lines 29-45). -/
def detectCaseType (data : RawData) : String :=
  match data.nodes with
  | none => "unknown"
  | some ns =>
    let nodeCount := ns.length
    if nodeCount ≤ 9 then "case9"
    else if nodeCount ≤ 14 then "case14"
    else if nodeCount ≤ 30 then "case30"
    else if nodeCount ≤ 39 then "case39"
    else if nodeCount ≤ 57 then "case57"
    else if nodeCount ≤ 118 then "case118"
    else "custom"

/-- `validateData(data)` (main.js lines 219-235): array-typed `nodes` and
`links`, every node with a truthy `id`, every link with truthy endpoints. -/
def validateData (data : RawData) : Bool :=
  match data.nodes, data.links with
  | some ns, some ls =>
    ns.all (fun nd => truthyStr nd.id)
      && ls.all (fun l => truthyPrim l.source && truthyPrim l.target)
  | _, _ => false

/-- The result shape of `convertData` (metadata's `convertedAt` wall-clock
timestamp is environment input and is omitted). -/
structure ConvData where
  caseType : String
  nodes : List NormNode
  links : List NormLink
  nodeCount : Nat
  linkCount : Nat
deriving Repr, DecidableEq

/-- `convertData(rawData)` (main.js lines 242-260): validation failure throws. -/
def convertData (rawData : RawData) (rnd : Nat → String) : Except String ConvData :=
  if !validateData rawData then .error "数据格式无效"
  else
    let caseType := detectCaseType rawData
    .ok { caseType := caseType
          nodes := normalizeNodes (rawData.nodes.getD []) caseType rnd
          links := normalizeLinks (rawData.links.getD [])
          nodeCount := (rawData.nodes.getD []).length
          linkCount := (rawData.links.getD []).length }

/-! ### Topology store (`PowerFlowVisualization.state`) -/

/-- A live node object held in `this.state.nodes`.  `tag` models JavaScript
object identity: two distinct object instances carry distinct tags, and
pointer equality (`===`) is equality of the whole structure. -/
structure NodeObj where
  tag : Nat := 0
  id : String := ""
  type : String := ""
  x : Rat := 0
  y : Rat := 0
  voltage : Rat := 0
  angle : Rat := 0
  active_power : Rat := 0
  reactive_power : Rat := 0
deriving Repr, DecidableEq

/-- A link endpoint as stored in `this.state.links`: either a string id
(pending resolution) or a resolved node object. -/
inductive Endpoint where
  | str (s : String)
  | obj (n : NodeObj)
deriving Repr, DecidableEq

/-- The repeated idiom `link.source.id || link.source` compared with `===`
against a node-id string (main.js lines 1996-2001 and 2242-2244): a resolved
object with truthy `id` contributes its id; a string endpoint contributes
itself; an object with falsy id contributes the object itself, which is
never `===` to a string. -/
def endpointMatches (e : Endpoint) (nodeId : String) : Bool :=
  match e with
  | .str s => s == nodeId
  | .obj n => if n.id.isEmpty then false else n.id == nodeId

/-- A link held in `this.state.links`. -/
structure StoreLink where
  source : Endpoint
  target : Endpoint
  resistance : Rat := 0
  reactance : Rat := 0
  active_power : Rat := 0
  reactive_power : Rat := 0
deriving Repr, DecidableEq

/-- The link record built by `addLink` (main.js lines 2019-2026): endpoints
are the given id strings, with fixed default electrical values. -/
def newLinkJS (sourceId targetId : String) : StoreLink :=
  { source := .str sourceId
    target := .str targetId
    resistance := mkRat 1 100
    reactance := mkRat 1 10
    active_power := 75
    reactive_power := 30 }

/-- `addLink(sourceId, targetId)` (main.js lines 2018-2032), restricted to its
effect on `this.state.links`: it pushes one new link, with no duplicate or
self-loop checking of its own. -/
def addLink (links : List StoreLink) (sourceId targetId : String) : List StoreLink :=
  links ++ [newLinkJS sourceId targetId]

/-- The store state touched by `deleteNode`. -/
structure Store where
  nodes : List NodeObj := []
  links : List StoreLink := []
  selectedNode : Option String := none
deriving Repr, DecidableEq

/-- The confirmed branch of `deleteNode(nodeId)` (main.js lines 2238-2254):
filter out links whose resolved endpoint id matches, filter out the node,
clear the selection when it pointed at the deleted node. -/
def deleteNode (st : Store) (nodeId : String) : Store :=
  { links := st.links.filter
      (fun l => !endpointMatches l.source nodeId && !endpointMatches l.target nodeId)
    nodes := st.nodes.filter (fun n => n.id != nodeId)
    selectedNode := if st.selectedNode = some nodeId then none else st.selectedNode }

/-- The node kinds `addNode` is invoked with (main.js lines 2184-2228). -/
inductive NodeKind where
  | slack
  | pv
  | generator
  | load
deriving Repr, DecidableEq

/-- `addNode(type)` (main.js lines 2169-2234), restricted to its effect on
`this.state.nodes`.  The viewport-derived center and the two random offsets
are environment inputs and passed as parameters, as is the fresh object tag.
The synthesized id is the kind-specific stem followed by
`this.state.nodes.length + 1`. -/
def addNode (nodes : List NodeObj) (kind : NodeKind)
    (centerX centerY offsetX offsetY : Rat) (tag : Nat) : List NodeObj :=
  let newNode : NodeObj :=
    match kind with
    | .slack =>
      { tag := tag, id := "slack" ++ toString (nodes.length + 1), type := "slack"
        x := centerX + offsetX, y := centerY + offsetY
        voltage := 1, angle := 0, active_power := 0, reactive_power := 0 }
    | .pv =>
      { tag := tag, id := "pv" ++ toString (nodes.length + 1), type := "pv"
        x := centerX + offsetX, y := centerY + offsetY
        voltage := mkRat 102 100, angle := 0, active_power := 100, reactive_power := 0 }
    | .generator =>
      { tag := tag, id := "gen" ++ toString (nodes.length + 1), type := "generator"
        x := centerX + offsetX, y := centerY + offsetY
        voltage := 1, angle := 0, active_power := 100, reactive_power := 50 }
    | .load =>
      { tag := tag, id := "load" ++ toString (nodes.length + 1), type := "load"
        x := centerX + offsetX, y := centerY + offsetY
        voltage := mkRat 98 100, angle := 0, active_power := -50, reactive_power := -20 }
  nodes ++ [newNode]

/-! ### Reference resolution (`updateVisualization`, main.js lines 1487-1509) -/

/-- The endpoint value after the resolution pass; `none` models the JS
`undefined` produced when `Array.find` misses on a string endpoint. -/
structure RLink where
  source : Option Endpoint
  target : Option Endpoint
  resistance : Rat := 0
  reactance : Rat := 0
  active_power : Rat := 0
  reactive_power : Rat := 0
deriving Repr, DecidableEq

/-- One endpoint of the resolution loop at the top of `updateVisualization`
(main.js lines 1489-1509): an object endpoint with truthy `id` is rebound to
the first store node sharing that id when one exists (kept as-is when the
lookup misses, or when it already is that instance); an object endpoint with
falsy `id` is left untouched; a string endpoint becomes the `find` result,
which is `undefined` (`none`) when no node carries that id. -/
def resolveEndpoint (nodes : List NodeObj) (e : Endpoint) : Option Endpoint :=
  match e with
  | .obj n =>
    if n.id.isEmpty then some (.obj n)
    else
      match nodes.find? (fun m => m.id == n.id) with
      | some matchedNode => some (.obj matchedNode)
      | none => some (.obj n)
  | .str s => (nodes.find? (fun m => m.id == s)).map .obj

/-- The whole-link step of the resolution loop. -/
def resolveLink (nodes : List NodeObj) (l : StoreLink) : RLink :=
  { source := resolveEndpoint nodes l.source
    target := resolveEndpoint nodes l.target
    resistance := l.resistance
    reactance := l.reactance
    active_power := l.active_power
    reactive_power := l.reactive_power }

/-- The resolution pass over all links (the spec's `resolveReferences()`;
main.js lines 1489-1509). -/
def resolveReferences (nodes : List NodeObj) (links : List StoreLink) : List RLink :=
  links.map (resolveLink nodes)

/-- The `calculatePowerFlow` success path (main.js lines 1457-1461): the
store's nodes and links are fully replaced by the result and the resolution
pass runs. -/
def replaceAllAndResolve (resultNodes : List NodeObj) (resultLinks : List StoreLink) :
    List NodeObj × List RLink :=
  (resultNodes, resolveReferences resultNodes resultLinks)

/-- The id an endpoint refers to (a string endpoint is itself an id; an
object endpoint refers to its node's id). -/
def endpointId (e : Endpoint) : String :=
  match e with
  | .str s => s
  | .obj n => n.id

/-! ### Interaction state machine -/

/-- The link-creation slice of `this.state`. -/
structure LCState where
  linkCreationMode : Bool := false
  selectedLinkSource : Option NodeObj := none
  links : List StoreLink := []
deriving Repr, DecidableEq

/-- The guard violations surfaced by the link-creation gesture
(`showErrorNotification` calls, main.js lines 1990 and 2005). -/
inductive LinkError where
  | selfLoop
  | duplicate
deriving Repr, DecidableEq

/-- The duplicate-link scan (main.js lines 1995-2002): some existing link
connects the unordered pair, in either direction. -/
def existingLinkBetween (links : List StoreLink) (aId bId : String) : Bool :=
  links.any (fun l =>
    (endpointMatches l.source aId && endpointMatches l.target bId)
      || (endpointMatches l.source bId && endpointMatches l.target aId))

/-- `handleNodeClickForLinkCreation(event, d)` (main.js lines 1977-2013),
restricted to the state it touches; the second component is the surfaced
guard error, if any.  The success branch issues `addLink` and then
`cancelLinkCreation` (mode off, pending source cleared). -/
def handleNodeClickForLinkCreation (st : LCState) (d : NodeObj) :
    LCState × Option LinkError :=
  if !st.linkCreationMode then (st, none)
  else
    match st.selectedLinkSource with
    | none => ({ st with selectedLinkSource := some d }, none)
    | some src =>
      if src.id == d.id then (st, some .selfLoop)
      else if existingLinkBetween st.links src.id d.id then (st, some .duplicate)
      else
        ({ linkCreationMode := false
           selectedLinkSource := none
           links := addLink st.links src.id d.id }, none)

/-- `cancelLinkCreation()` (main.js lines 1948-1972), restricted to the state
it touches. -/
def cancelLinkCreation (st : LCState) : LCState :=
  { st with linkCreationMode := false, selectedLinkSource := none }

/-- The selection slice of `this.state`: at the representation level a single
optional node id and a single optional link. -/
structure SelState where
  selectedNode : Option String := none
  selectedLink : Option StoreLink := none
deriving Repr, DecidableEq

/-- The selection effect of `handleNodeClick(event, d)` outside link-creation
mode (main.js lines 2074-2075): toggle the node selection, clear any link
selection. -/
def handleNodeClick (st : SelState) (d : NodeObj) : SelState :=
  { selectedNode := if st.selectedNode = some d.id then none else some d.id
    selectedLink := none }

/-- The selection effect of `handleLinkClick(event, d)` (main.js lines
2117-2118): select the link, clear any node selection. -/
def handleLinkClick (_st : SelState) (d : StoreLink) : SelState :=
  { selectedLink := some d, selectedNode := none }

/-- A click gesture outside link-creation mode. -/
inductive Gesture where
  | nodeClick (d : NodeObj)
  | linkClick (l : StoreLink)
deriving Repr, DecidableEq

/-- One gesture dispatched to its handler. -/
def gestureStep (st : SelState) : Gesture → SelState
  | .nodeClick d => handleNodeClick st d
  | .linkClick l => handleLinkClick st l

/-- A gesture sequence run from the initial state (nothing selected,
main.js lines 272-273). -/
def runGestures (gs : List Gesture) : SelState :=
  gs.foldl gestureStep {}

/-! ### Spec-worded comparison definition (for the type-inference claim) -/

/-- The type-inference rule exactly as the spec sentence states it, for
comparison with `determineNodeType`: explicit type as-is, then the bus-type
table, then the heuristic applied to the ADAPTER-NORMALIZED active power and
voltage.  Since normalization always defaults `voltage` (to 1.0), the
normalized voltage is always defined, so the claim's pv branch subsumes its
generator branch. -/
def specNodeType (nd : RawNode) : String :=
  match nd.type with
  | some t => t
  | none =>
    match nd.bus_type with
    | some b => (busTypeMapping b).getD "load"
    | none =>
      let nap := orNum nd.active_power (orNum nd.pd 0)
      if 0 < nap then "pv"
      else if nap < 0 then "load"
      else "load"

/-! ### Concrete instances used by witnesses and counterexamples -/

/-- Endpoint has a JS-truthy resolved id: a string endpoint always does (the
string itself is compared), an object endpoint does when its node's id is
nonempty. -/
def objIdTruthy (e : Endpoint) : Bool :=
  match e with
  | .str _ => true
  | .obj n => !n.id.isEmpty

/-- Demo node `bus1`. -/
def demoN1 : NodeObj := { tag := 1, id := "bus1" }

/-- Demo node `bus2`. -/
def demoN2 : NodeObj := { tag := 2, id := "bus2" }

/-- Demo node `bus3`. -/
def demoN3 : NodeObj := { tag := 3, id := "bus3" }

/-- Demo node `bus4`. -/
def demoN4 : NodeObj := { tag := 4, id := "bus4" }

/-- Demo store: four nodes, two links incident to `bus1`, one not, `bus1`
selected (spec scenario 3). -/
def demoStore : Store :=
  { nodes := [demoN1, demoN2, demoN3, demoN4]
    links := [{ source := .obj demoN1, target := .str "bus2" },
              { source := .str "bus3", target := .obj demoN1 },
              { source := .obj demoN2, target := .obj demoN3 }]
    selectedNode := some "bus1" }

/-- The store-resident node instance with the empty-string id. -/
def staleHome : NodeObj := { tag := 0, id := "" }

/-- A distinct (stale) node instance with the same empty-string id. -/
def staleObj : NodeObj := { tag := 1, id := "" }

/-! ### Helper lemmas -/

/-- `orNum` keeps a present nonzero value. -/
theorem orNum_truthy {v : Rat} (h : v ≠ 0) (b : Rat) : orNum (some v) b = v := by
  simp [orNum, h]

/-- `orNum` falls through on a missing or zero value. -/
theorem orNum_falsy {a : Option Rat} (h : a = none ∨ a = some 0) (b : Rat) :
    orNum a b = b := by
  rcases h with h | h <;> simp [orNum, h]

/-- `List.find?` on node ids hits when a node with the id exists. -/
theorem find?_of_exists {nodes : List NodeObj} {s : String}
    (h : ∃ n ∈ nodes, n.id = s) :
    ∃ m, nodes.find? (fun m => m.id == s) = some m ∧ m ∈ nodes ∧ m.id = s := by
  obtain ⟨n, hn, hid⟩ := h
  have hsome : (nodes.find? (fun m => m.id == s)).isSome :=
    List.find?_isSome.mpr ⟨n, hn, by simp [hid]⟩
  obtain ⟨m, hm⟩ := Option.isSome_iff_exists.mp hsome
  exact ⟨m, hm, List.mem_of_find?_eq_some hm, by simpa using List.find?_some hm⟩

/-- An endpoint whose id is truthy and occurs among the node ids resolves to
the first store node carrying that id. -/
theorem resolveEndpoint_hit (nodes : List NodeObj) (e : Endpoint)
    (htruthy : objIdTruthy e = true)
    (hocc : ∃ n ∈ nodes, n.id = endpointId e) :
    ∃ m ∈ nodes, m.id = endpointId e ∧ resolveEndpoint nodes e = some (.obj m) := by
  cases e with
  | str s =>
    obtain ⟨m, hm, hmem, hid⟩ := find?_of_exists (s := s) hocc
    exact ⟨m, hmem, hid, by simp [resolveEndpoint, hm]⟩
  | obj n =>
    have hne : n.id.isEmpty = false := by
      simpa [objIdTruthy] using htruthy
    obtain ⟨m, hm, hmem, hid⟩ := find?_of_exists (s := n.id) hocc
    exact ⟨m, hmem, hid, by simp [resolveEndpoint, hne, hm]⟩

/-! ### Claim C1 -/

/-- Counterexample to C1 as stated: a self-loop call to `addLink` neither
fails nor leaves the link collection unchanged — it appends the self-loop;
likewise a duplicate unordered pair is appended a second time. -/
theorem addLink_counterexample :
    addLink [] "a" "a" = [newLinkJS "a" "a"] ∧
    addLink [] "a" "a" ≠ [] ∧
    addLink [newLinkJS "a" "b"] "a" "b" = [newLinkJS "a" "b", newLinkJS "a" "b"] := by
  refine ⟨rfl, by decide, rfl⟩

/-- Claim C1 (amended): `addLink` itself performs no duplicate or self-loop
validation — every call appends exactly one link whose `source`/`target` are
the given id strings pending resolution; the `SelfLoopError` /
`DuplicateLinkError` guards are enforced by its only caller,
`handleNodeClickForLinkCreation`, which on a violation surfaces the error
and leaves the whole state (links included) unchanged. -/
theorem addLink_appends_guards_in_caller
    (links : List StoreLink) (sourceId targetId : String)
    (st : LCState) (A d : NodeObj)
    (hmode : st.linkCreationMode = true) (hsrc : st.selectedLinkSource = some A) :
    addLink links sourceId targetId = links ++ [newLinkJS sourceId targetId] ∧
    (A.id = d.id → handleNodeClickForLinkCreation st d = (st, some .selfLoop)) ∧
    (A.id ≠ d.id → existingLinkBetween st.links A.id d.id = true →
      handleNodeClickForLinkCreation st d = (st, some .duplicate)) := by
  refine ⟨rfl, ?_, ?_⟩
  · intro h
    simp [handleNodeClickForLinkCreation, hmode, hsrc, h]
  · intro hne hdup
    simp [handleNodeClickForLinkCreation, hmode, hsrc, hdup, hne]

/-- Witness for the amended C1 theorem at concrete inputs. -/
theorem addLink_appends_guards_in_caller_witness :
    addLink [] "a" "b" = [newLinkJS "a" "b"] ∧
    handleNodeClickForLinkCreation
        { linkCreationMode := true, selectedLinkSource := some demoN1, links := [] }
        demoN1 =
      ({ linkCreationMode := true, selectedLinkSource := some demoN1, links := [] },
        some .selfLoop) := by
  have h := addLink_appends_guards_in_caller [] "a" "b"
    { linkCreationMode := true, selectedLinkSource := some demoN1, links := [] }
    demoN1 demoN1 rfl rfl
  exact ⟨h.1, h.2.1 rfl⟩

/-! ### Claim C2 -/

/-- Claim C2: for a node id present in the store, a confirmed
`deleteNode(id)` removes exactly the nodes bearing that id, removes exactly
the links with an endpoint resolving to that id, and clears the selection
exactly when it pointed at the deleted node. -/
theorem deleteNode_cascade (st : Store) (nodeId : String)
    (hmem : ∃ n ∈ st.nodes, n.id = nodeId) :
    (∀ n : NodeObj, n ∈ (deleteNode st nodeId).nodes ↔ n ∈ st.nodes ∧ n.id ≠ nodeId) ∧
    (∀ l : StoreLink, l ∈ (deleteNode st nodeId).links ↔
      l ∈ st.links ∧ endpointMatches l.source nodeId = false ∧
        endpointMatches l.target nodeId = false) ∧
    (deleteNode st nodeId).selectedNode =
      (if st.selectedNode = some nodeId then none else st.selectedNode) := by
  refine ⟨fun n => ?_, fun l => ?_, rfl⟩
  · simp [deleteNode, List.mem_filter]
  · simp [deleteNode, List.mem_filter, and_assoc]

/-- Witness: deleting `bus1` from the demo store (four nodes, two links
incident to `bus1`, `bus1` selected). -/
theorem deleteNode_cascade_witness :
    (demoN1 ∈ (deleteNode demoStore "bus1").nodes ↔
      demoN1 ∈ demoStore.nodes ∧ demoN1.id ≠ "bus1") ∧
    (deleteNode demoStore "bus1").selectedNode =
      (if demoStore.selectedNode = some "bus1" then none else demoStore.selectedNode) := by
  have h := deleteNode_cascade demoStore "bus1" ⟨demoN1, by decide, by decide⟩
  exact ⟨h.1 demoN1, h.2.2⟩

/-! ### Claim C3 -/

/-- Counterexample to C3 as stated: the claim's assumption only requires
every endpoint id to occur among the node ids.  With the empty-string id —
occurring in the node collection and carried by a distinct stale object
endpoint — the resolution pass skips the endpoint (JS `link.source.id` is
falsy), so the installed endpoint stays the stale instance and is not
pointer-equal to the collection's node with that id. -/
theorem resolveReferences_counterexample :
    (∃ n ∈ [staleHome], n.id = endpointId (.obj staleObj)) ∧
    resolveReferences [staleHome] [{ source := .obj staleObj, target := .str "" }] =
      [{ source := some (.obj staleObj), target := some (.obj staleHome) }] ∧
    staleObj ≠ staleHome := by
  refine ⟨⟨staleHome, by decide, by decide⟩, by decide, by decide⟩

/-- Claim C3 (amended): assuming every link endpoint id occurs among the new
node collection's ids AND is truthy (nonempty — string ids are compared
as-is, object endpoints need a truthy `id` for the resolution branch to
fire), then after a full replacement plus the resolution pass every link's
`source` and `target` is pointer-equal to a member of the new node
collection bearing that id. -/
theorem resolveReferences_rebinds (nodes : List NodeObj) (links : List StoreLink)
    (hocc : ∀ l ∈ links, (∃ n ∈ nodes, n.id = endpointId l.source) ∧
      (∃ n ∈ nodes, n.id = endpointId l.target))
    (htruthy : ∀ l ∈ links, objIdTruthy l.source = true ∧ objIdTruthy l.target = true) :
    (replaceAllAndResolve nodes links).2 = links.map (resolveLink nodes) ∧
    ∀ l ∈ links, ∃ ms ∈ nodes, ∃ mt ∈ nodes,
      ms.id = endpointId l.source ∧ mt.id = endpointId l.target ∧
      (resolveLink nodes l).source = some (.obj ms) ∧
      (resolveLink nodes l).target = some (.obj mt) := by
  refine ⟨rfl, fun l hl => ?_⟩
  obtain ⟨ms, hms, hmsid, hs⟩ :=
    resolveEndpoint_hit nodes l.source (htruthy l hl).1 (hocc l hl).1
  obtain ⟨mt, hmt, hmtid, ht⟩ :=
    resolveEndpoint_hit nodes l.target (htruthy l hl).2 (hocc l hl).2
  exact ⟨ms, hms, mt, hmt, hmsid, hmtid, hs, ht⟩

/-- Witness: a replacement with two fresh node instances, one string
endpoint and one stale-object endpoint. -/
theorem resolveReferences_rebinds_witness :
    ∃ ms ∈ [demoN1, demoN2], ∃ mt ∈ [demoN1, demoN2],
      ms.id = endpointId (Endpoint.str "bus1") ∧
      mt.id = endpointId (Endpoint.obj { tag := 99, id := "bus2" }) ∧
      (resolveLink [demoN1, demoN2]
        { source := .str "bus1", target := .obj { tag := 99, id := "bus2" } }).source =
        some (.obj ms) ∧
      (resolveLink [demoN1, demoN2]
        { source := .str "bus1", target := .obj { tag := 99, id := "bus2" } }).target =
        some (.obj mt) :=
  (resolveReferences_rebinds [demoN1, demoN2]
      [{ source := .str "bus1", target := .obj { tag := 99, id := "bus2" } }]
      (by decide) (by decide)).2
    { source := .str "bus1", target := .obj { tag := 99, id := "bus2" } } (by decide)

/-! ### Claim C4 -/

/-- Claim C4 evaluation at the failing input: a replacement whose link names
the absent node id `bus2` completes without any error — the resolution pass
installs the link with its `target` set to `undefined` (`none`), a dangling
reference, rather than raising `ReferenceResolutionError` and aborting (no
such error exists anywhere in the source). -/
theorem resolveReferences_installs_dangling :
    replaceAllAndResolve [demoN1] [{ source := .str "bus1", target := .str "bus2" }] =
      ([demoN1], [{ source := some (.obj demoN1), target := none }]) := by
  decide

/-! ### Claim C5 -/

/-- Claim C5 evaluation at the failing input: a fully canonical one-node
payload that already carries both `x` and `y` (5, 5).  `convertData` does not
preserve them: `normalizeNodes` never copies the raw `x`/`y` into the
normalized node, so its "synthesize only when missing" check always fires
and the output coordinate is the `case9` table entry (100, 150), not the
input coordinate — contradicting the source's own comment that coordinates
are added only when absent. -/
theorem convertData_drops_present_coordinates :
    convertData
        { nodes := some [{ id := some "bus1", type := some "slack",
                           voltage := some (mkRat 104 100), x := some 5, y := some 5 }],
          links := some [] } (fun _ => "r") =
      .ok { caseType := "case9",
            nodes := [{ id := "bus1", voltage := mkRat 104 100, angle := 0,
                        active_power := 0, reactive_power := 0, type := "slack",
                        coord := some (.xy 100 150) }],
            links := [], nodeCount := 1, linkCount := 0 } ∧
    some (Coord.xy 100 150) ≠ some (Coord.xy 5 5) := by
  refine ⟨by rfl, by decide⟩

/-! ### Claim C6 -/

/-- Counterexample to C6 as stated: present-but-zero numeric values are NOT
carried through.  A node arriving with `voltage` exactly `0` receives the
default `1.0` (JS `||` treats `0` as falsy), and a link arriving with alias
`r` exactly `0` — as in the repository's own `case9` branch data — receives
the default resistance `0.01`. -/
theorem normalize_zero_counterexample :
    (normalizeNode { id := some "bus1", voltage := some 0 } "case9" 1 "r").voltage = 1 ∧
    (1 : Rat) ≠ 0 ∧
    (normalizeLink { r := some 0 }).resistance = mkRat 1 100 ∧
    (mkRat 1 100 : Rat) ≠ 0 := by
  exact ⟨by decide, by decide, by decide, by decide⟩

/-- Claim C6 (amended): normalization applies the domain defaults (voltage
1.0, angle 0, powers 0, resistance 0.01, reactance 0.05) exactly to the
numeric fields whose aliases are all missing OR zero (JS-falsy); a present
NONZERO value is carried through under either alias, primary alias first. -/
theorem normalize_field_defaults (nd : RawNode) (l : RawLink) (ct : String)
    (tn : Nat) (rnd : String) :
    (∀ v, nd.voltage = some v → v ≠ 0 → (normalizeNode nd ct tn rnd).voltage = v) ∧
    ((nd.voltage = none ∨ nd.voltage = some 0) →
      ∀ v, nd.vm = some v → v ≠ 0 → (normalizeNode nd ct tn rnd).voltage = v) ∧
    ((nd.voltage = none ∨ nd.voltage = some 0) → (nd.vm = none ∨ nd.vm = some 0) →
      (normalizeNode nd ct tn rnd).voltage = 1) ∧
    (∀ v, nd.angle = some v → v ≠ 0 → (normalizeNode nd ct tn rnd).angle = v) ∧
    ((nd.angle = none ∨ nd.angle = some 0) →
      ∀ v, nd.va = some v → v ≠ 0 → (normalizeNode nd ct tn rnd).angle = v) ∧
    ((nd.angle = none ∨ nd.angle = some 0) → (nd.va = none ∨ nd.va = some 0) →
      (normalizeNode nd ct tn rnd).angle = 0) ∧
    (∀ v, nd.active_power = some v → v ≠ 0 →
      (normalizeNode nd ct tn rnd).active_power = v) ∧
    ((nd.active_power = none ∨ nd.active_power = some 0) →
      ∀ v, nd.pd = some v → v ≠ 0 → (normalizeNode nd ct tn rnd).active_power = v) ∧
    ((nd.active_power = none ∨ nd.active_power = some 0) →
      (nd.pd = none ∨ nd.pd = some 0) → (normalizeNode nd ct tn rnd).active_power = 0) ∧
    (∀ v, nd.reactive_power = some v → v ≠ 0 →
      (normalizeNode nd ct tn rnd).reactive_power = v) ∧
    ((nd.reactive_power = none ∨ nd.reactive_power = some 0) →
      ∀ v, nd.qd = some v → v ≠ 0 → (normalizeNode nd ct tn rnd).reactive_power = v) ∧
    ((nd.reactive_power = none ∨ nd.reactive_power = some 0) →
      (nd.qd = none ∨ nd.qd = some 0) →
      (normalizeNode nd ct tn rnd).reactive_power = 0) ∧
    (∀ v, l.resistance = some v → v ≠ 0 → (normalizeLink l).resistance = v) ∧
    ((l.resistance = none ∨ l.resistance = some 0) →
      ∀ v, l.r = some v → v ≠ 0 → (normalizeLink l).resistance = v) ∧
    ((l.resistance = none ∨ l.resistance = some 0) → (l.r = none ∨ l.r = some 0) →
      (normalizeLink l).resistance = mkRat 1 100) ∧
    (∀ v, l.reactance = some v → v ≠ 0 → (normalizeLink l).reactance = v) ∧
    ((l.reactance = none ∨ l.reactance = some 0) →
      ∀ v, l.x = some v → v ≠ 0 → (normalizeLink l).reactance = v) ∧
    ((l.reactance = none ∨ l.reactance = some 0) → (l.x = none ∨ l.x = some 0) →
      (normalizeLink l).reactance = mkRat 1 20) := by
  have hv : (normalizeNode nd ct tn rnd).voltage = orNum nd.voltage (orNum nd.vm 1) := rfl
  have ha : (normalizeNode nd ct tn rnd).angle = orNum nd.angle (orNum nd.va 0) := rfl
  have hp : (normalizeNode nd ct tn rnd).active_power =
    orNum nd.active_power (orNum nd.pd 0) := rfl
  have hq : (normalizeNode nd ct tn rnd).reactive_power =
    orNum nd.reactive_power (orNum nd.qd 0) := rfl
  have hr : (normalizeLink l).resistance = orNum l.resistance (orNum l.r (mkRat 1 100)) := rfl
  have hx : (normalizeLink l).reactance = orNum l.reactance (orNum l.x (mkRat 1 20)) := rfl
  refine ⟨?_, ?_, ?_, ?_, ?_, ?_, ?_, ?_, ?_, ?_, ?_, ?_, ?_, ?_, ?_, ?_, ?_, ?_⟩
  · intro v h hne; rw [hv, h, orNum_truthy hne]
  · intro h1 v h hne; rw [hv, orNum_falsy h1, h, orNum_truthy hne]
  · intro h1 h2; rw [hv, orNum_falsy h1, orNum_falsy h2]
  · intro v h hne; rw [ha, h, orNum_truthy hne]
  · intro h1 v h hne; rw [ha, orNum_falsy h1, h, orNum_truthy hne]
  · intro h1 h2; rw [ha, orNum_falsy h1, orNum_falsy h2]
  · intro v h hne; rw [hp, h, orNum_truthy hne]
  · intro h1 v h hne; rw [hp, orNum_falsy h1, h, orNum_truthy hne]
  · intro h1 h2; rw [hp, orNum_falsy h1, orNum_falsy h2]
  · intro v h hne; rw [hq, h, orNum_truthy hne]
  · intro h1 v h hne; rw [hq, orNum_falsy h1, h, orNum_truthy hne]
  · intro h1 h2; rw [hq, orNum_falsy h1, orNum_falsy h2]
  · intro v h hne; rw [hr, h, orNum_truthy hne]
  · intro h1 v h hne; rw [hr, orNum_falsy h1, h, orNum_truthy hne]
  · intro h1 h2; rw [hr, orNum_falsy h1, orNum_falsy h2]
  · intro v h hne; rw [hx, h, orNum_truthy hne]
  · intro h1 v h hne; rw [hx, orNum_falsy h1, h, orNum_truthy hne]
  · intro h1 h2; rw [hx, orNum_falsy h1, orNum_falsy h2]

/-- Witness: a present nonzero voltage is kept, an all-missing voltage
defaults to 1, a present nonzero alias resistance is kept. -/
theorem normalize_field_defaults_witness :
    (normalizeNode { id := some "bus1", voltage := some (mkRat 104 100) } "case9" 1 "r").voltage =
      mkRat 104 100 ∧
    (normalizeNode { id := some "bus1" } "case9" 1 "r").voltage = 1 ∧
    (normalizeLink { r := some (mkRat 5 100) }).resistance = mkRat 5 100 := by
  refine ⟨(normalize_field_defaults { id := some "bus1", voltage := some (mkRat 104 100) }
      {} "case9" 1 "r").1 (mkRat 104 100) rfl (by decide), ?_, ?_⟩
  · exact (normalize_field_defaults { id := some "bus1" } {} "case9" 1 "r").2.2.1
      (Or.inl rfl) (Or.inl rfl)
  · exact (normalize_field_defaults {} { r := some (mkRat 5 100) } "case9" 1 "r").2.2.2.2.2.2.2.2.2.2.2.2.2.1
      (Or.inl rfl) (mkRat 5 100) rfl (by decide)

/-! ### Claim C7 -/

/-- Claim C7 evaluation at the failing sequence: from an empty store, add a
load node (`load1`), add a second (`load2`), delete `load1`, then add a
third load node.  The synthesized id is the stem plus `length + 1 = 2`, which
collides with the surviving `load2`: the store ends with two distinct node
objects sharing the id `load2`, violating id uniqueness. -/
theorem addNode_duplicate_id_after_delete :
    ((addNode (deleteNode
        { nodes := addNode (addNode [] .load 0 0 0 0 1) .load 0 0 0 0 2 }
        "load1").nodes .load 0 0 0 0 3).map NodeObj.id) = ["load2", "load2"] ∧
    ¬ (["load2", "load2"] : List String).Nodup := by
  exact ⟨by decide, by decide⟩

/-! ### Claim C8 -/

/-- Claim C8: in link-creation mode with chosen source `A`, clicking `A`
again surfaces `SelfLoopError` with the whole state (mode, pending source,
links) unchanged; clicking `B` with an existing `A`–`B` link in either
direction surfaces `DuplicateLinkError`, likewise unchanged; clicking a
fresh `B` appends exactly the one new `A→B` link and returns to idle (mode
off, pending source cleared). -/
theorem linkCreation_target_click (st : LCState) (A d : NodeObj)
    (hmode : st.linkCreationMode = true) (hsrc : st.selectedLinkSource = some A) :
    (A.id = d.id → handleNodeClickForLinkCreation st d = (st, some .selfLoop)) ∧
    (A.id ≠ d.id → existingLinkBetween st.links A.id d.id = true →
      handleNodeClickForLinkCreation st d = (st, some .duplicate)) ∧
    (A.id ≠ d.id → existingLinkBetween st.links A.id d.id = false →
      handleNodeClickForLinkCreation st d =
        ({ linkCreationMode := false, selectedLinkSource := none,
           links := st.links ++ [newLinkJS A.id d.id] }, none)) := by
  refine ⟨?_, ?_, ?_⟩
  · intro h
    simp [handleNodeClickForLinkCreation, hmode, hsrc, h]
  · intro hne hdup
    simp [handleNodeClickForLinkCreation, hmode, hsrc, hdup, hne]
  · intro hne hdup
    simp [handleNodeClickForLinkCreation, hmode, hsrc, hdup, hne, addLink]

/-- Witness: the successful creation gesture `bus1 → bus2` on an empty link
collection. -/
theorem linkCreation_target_click_witness :
    handleNodeClickForLinkCreation
        { linkCreationMode := true, selectedLinkSource := some demoN1, links := [] }
        demoN2 =
      ({ linkCreationMode := false, selectedLinkSource := none,
         links := [newLinkJS "bus1" "bus2"] }, none) := by
  have h := linkCreation_target_click
    { linkCreationMode := true, selectedLinkSource := some demoN1, links := [] }
    demoN1 demoN2 rfl rfl
  exact h.2.2 (by decide) (by decide)

/-! ### Claim C9 -/

/-- One gesture preserves selection exclusivity: a node click clears the
link selection, a link click clears the node selection. -/
theorem gestureStep_exclusive (st : SelState) (g : Gesture) :
    (gestureStep st g).selectedNode = none ∨ (gestureStep st g).selectedLink = none := by
  cases g with
  | nodeClick d => exact Or.inr rfl
  | linkClick l => exact Or.inl rfl

/-- Exclusivity is preserved along any fold of gestures from a state that
already satisfies it. -/
theorem foldl_gestures_exclusive (gs : List Gesture) (st : SelState)
    (h : st.selectedNode = none ∨ st.selectedLink = none) :
    (gs.foldl gestureStep st).selectedNode = none ∨
      (gs.foldl gestureStep st).selectedLink = none := by
  induction gs generalizing st with
  | nil => simpa using h
  | cons g gs ih => simpa using ih (gestureStep st g) (gestureStep_exclusive st g)

/-- Claim C9: after any gesture sequence outside link-creation mode, the
selection state never marks a node and a link simultaneously (each kind is
single-valued by representation), and clicking the currently selected node
deselects it. -/
theorem selection_exclusivity (gs : List Gesture) (d : NodeObj) :
    ((runGestures gs).selectedNode = none ∨ (runGestures gs).selectedLink = none) ∧
    ((runGestures gs).selectedNode = some d.id →
      (gestureStep (runGestures gs) (.nodeClick d)).selectedNode = none) := by
  constructor
  · exact foldl_gestures_exclusive gs {} (Or.inl rfl)
  · intro h
    simp [gestureStep, handleNodeClick, h]

/-- Witness: one node click selects `bus1`; clicking it again deselects. -/
theorem selection_exclusivity_witness :
    ((runGestures [.nodeClick demoN1]).selectedNode = none ∨
      (runGestures [.nodeClick demoN1]).selectedLink = none) ∧
    (gestureStep (runGestures [.nodeClick demoN1]) (.nodeClick demoN1)).selectedNode =
      none := by
  have h := selection_exclusivity [.nodeClick demoN1] demoN1
  exact ⟨h.1, h.2 (by decide)⟩

/-! ### Claim C10 -/

/-- Counterexample to C10 as stated: the heuristic runs on the RAW fields,
not the adapter-normalized ones.  A node arriving with demand alias
`pd = 125` and voltage alias `vm = 1` (no explicit type, no bus_type, no
canonical `active_power`/`voltage` fields) is typed `load` by the code
(raw `active_power` is undefined), while the claim's normalized-attribute
heuristic (normalized active power 125 > 0, normalized voltage defined)
yields `pv`. -/
theorem determineNodeType_counterexample :
    determineNodeType { pd := some 125, vm := some 1 } "case9" = "load" ∧
    specNodeType { pd := some 125, vm := some 1 } = "pv" ∧
    ("load" : String) ≠ "pv" := by
  exact ⟨by decide, by decide, by decide⟩

/-- Claim C10 (amended): type inference priority on the RAW node fields — a
truthy explicit `type` is returned as-is; otherwise a defined `bus_type` is
mapped by the fixed table with unknown codes giving `load`; otherwise the
heuristic on the raw attributes: positive raw `active_power` with the raw
`voltage` field present gives `pv`, positive without it gives `generator`,
negative gives `load`, and a missing or zero raw `active_power` gives
`load`. -/
theorem determineNodeType_priority (nd : RawNode) (ct : String) :
    (∀ t, nd.type = some t → t ≠ "" → determineNodeType nd ct = t) ∧
    ((nd.type = none ∨ nd.type = some "") → ∀ b, nd.bus_type = some b →
      determineNodeType nd ct = (busTypeMapping b).getD "load") ∧
    ((nd.type = none ∨ nd.type = some "") → nd.bus_type = none →
      ∀ v, nd.active_power = some v → 0 < v → nd.voltage.isSome = true →
        determineNodeType nd ct = "pv") ∧
    ((nd.type = none ∨ nd.type = some "") → nd.bus_type = none →
      ∀ v, nd.active_power = some v → 0 < v → nd.voltage = none →
        determineNodeType nd ct = "generator") ∧
    ((nd.type = none ∨ nd.type = some "") → nd.bus_type = none →
      ∀ v, nd.active_power = some v → v < 0 →
        determineNodeType nd ct = "load") ∧
    ((nd.type = none ∨ nd.type = some "") → nd.bus_type = none →
      (nd.active_power = none ∨ nd.active_power = some 0) →
        determineNodeType nd ct = "load") := by
  have hexp : ∀ h : nd.type = none ∨ nd.type = some "",
      determineNodeType nd ct = determineNodeTypeFallback nd := by
    intro h
    rcases h with h | h <;>
      simp [determineNodeType, h, show "".isEmpty = true from rfl]
  refine ⟨?_, ?_, ?_, ?_, ?_, ?_⟩
  · intro t h hne
    have ht : t.isEmpty = false := by
      rcases ht : t.isEmpty with _ | _
      · rfl
      · exact absurd (String.isEmpty_iff t |>.mp ht) hne
    simp [determineNodeType, h, ht]
  · intro h b hb
    rw [hexp h]; simp [determineNodeTypeFallback, hb]
  · intro h hbt v hv hpos hvolt
    rw [hexp h]
    simp [determineNodeTypeFallback, hbt, hv, hpos, hvolt]
  · intro h hbt v hv hpos hvolt
    rw [hexp h]
    simp [determineNodeTypeFallback, hbt, hv, hpos, hvolt]
  · intro h hbt v hv hneg
    rw [hexp h]
    simp [determineNodeTypeFallback, hbt, hv, hneg, lt_asymm hneg]
  · intro h hbt hap
    rw [hexp h]
    rcases hap with hap | hap <;>
      simp [determineNodeTypeFallback, hbt, hap]

/-- Witness: one node per branch of the amended priority order. -/
theorem determineNodeType_priority_witness :
    determineNodeType { type := some "slack" } "case9" = "slack" ∧
    determineNodeType { bus_type := some 2 } "case9" = "pv" ∧
    determineNodeType { active_power := some 100, voltage := some 1 } "case9" = "pv" ∧
    determineNodeType { active_power := some 100 } "case9" = "generator" ∧
    determineNodeType { active_power := some (-50) } "case9" = "load" ∧
    determineNodeType {} "case9" = "load" := by
  refine ⟨(determineNodeType_priority { type := some "slack" } "case9").1 "slack" rfl
      (by decide), ?_, ?_, ?_, ?_, ?_⟩
  · have h := (determineNodeType_priority { bus_type := some 2 } "case9").2.1
      (Or.inl rfl) 2 rfl
    exact h.trans (by decide)
  · exact (determineNodeType_priority
      { active_power := some 100, voltage := some 1 } "case9").2.2.1
      (Or.inl rfl) rfl 100 rfl (by decide) rfl
  · exact (determineNodeType_priority { active_power := some 100 } "case9").2.2.2.1
      (Or.inl rfl) rfl 100 rfl (by decide) rfl
  · exact (determineNodeType_priority { active_power := some (-50) } "case9").2.2.2.2.1
      (Or.inl rfl) rfl (-50) rfl (by decide)
  · exact (determineNodeType_priority {} "case9").2.2.2.2.2
      (Or.inl rfl) rfl (Or.inl rfl)

end PPV
